import Mathlib

/-!
Shallow embedding of `mhubio/modules/convert/NiftiConverter.py`.

The module converts per-instance imaging data (DICOM or NRRD) to NIfTI by
dispatching to one of two external conversion backends (plastimatch via
pyplastimatch, or the dcm2niix command line tool).  The embedding models:

  * the filesystem as an association list from absolute paths to file
    contents (`FS`), with lookup shadowed by the most recent write;
  * the external backends as an opaque parameter (`BackendBehavior`): each
    invocation either returns a new filesystem or fails (the failure also
    carries a filesystem, since a crashed external process may have written
    some incomplete data);
  * printed messages, backend invocations and log confirmations as an
    explicit event record (`TaskState`);
  * Python exceptions (`assert`, `raise ValueError`, a propagating backend
    failure) as `Except` errors carrying the state at the moment of the
    raise;
  * Python `os.path` string operations (`basename`, `dirname`, slicing,
    `endswith`) as executable functions over `List Char`.
-/

/-! ## Filesystem model -/

/-- A filesystem: association list from absolute path to file content.
`lookup` finds the most recent binding, so `write` shadows older entries. -/
abbrev FS := List (String × String)

/-- Content of the file at path `p`, if a file exists there. -/
def FS.lookup (fs : FS) (p : String) : Option String :=
  List.lookup p fs

/-- Python `os.path.isfile`: a file exists at path `p`. -/
def FS.isfile (fs : FS) (p : String) : Bool :=
  (FS.lookup fs p).isSome

/-- Python `os.remove`: delete any binding for path `p`. -/
def FS.remove (fs : FS) (p : String) : FS :=
  fs.filter (fun e => e.1 ≠ p)

/-- Write content `c` at path `p` (used only by sample backend behaviors). -/
def FS.write (fs : FS) (p : String) (c : String) : FS :=
  (p, c) :: fs

/-! ## Python `os.path` string helpers (POSIX semantics) -/

/-- Python `str.endswith`: `t` is a suffix of `s`. -/
def pyEndsWith (s t : String) : Bool :=
  t.toList.isSuffixOf s.toList

/-- Python slice `s[:-n]`: drop the last `n` characters. -/
def pySliceDropRight (s : String) (n : Nat) : String :=
  String.mk ((s.toList.reverse.drop n).reverse)

/-- Python `os.path.basename`: the part of the path after the last slash. -/
def pyBasename (s : String) : String :=
  String.mk ((s.toList.reverse.takeWhile (fun c => c ≠ '/')).reverse)

/-- Python `os.path.dirname`: the part before the last slash; trailing slashes are
stripped unless the result consists only of slashes. -/
def pyDirname (s : String) : String :=
  let head := (s.toList.reverse.dropWhile (fun c => c ≠ '/')).reverse
  if head ≠ [] ∧ head.any (fun c => c ≠ '/')
  then String.mk ((head.reverse.dropWhile (fun c => c = '/')).reverse)
  else String.mk head

/-! ## Data model -/

/-- The `mhubio.core.FileType`: the storage formats relevant to the converter. -/
inductive FileType where
  | DICOM
  | NRRD
  | NIFTI
  | LOG
  | OTHER
deriving DecidableEq, Repr

/-- The `mhubio.core.InstanceData`: one artifact, reduced to the two attributes
the converter reads (`abspath` and `type.ftype`). -/
structure InstanceData where
  abspath : String
  ftype : FileType
deriving DecidableEq, Repr

/-- The `NiftiConverterEngine` configuration value: the configured engine.  `OTHER` stands for any
configured value that is neither of the two supported engines, which the
task's `else: raise ValueError` branch guards against. -/
inductive NiftiConverterEngine where
  | PLASTIMATCH
  | DCM2NIIX
  | OTHER (name : String)
deriving DecidableEq, Repr

/-- Python `f"{self.engine}"` rendering of the engine value. -/
def engineRepr : NiftiConverterEngine → String
  | NiftiConverterEngine.PLASTIMATCH => "NiftiConverterEngine.PLASTIMATCH"
  | NiftiConverterEngine.DCM2NIIX => "NiftiConverterEngine.DCM2NIIX"
  | NiftiConverterEngine.OTHER s => s

/-- Module configuration: the `@IO.Config` fields the task body reads, plus
the process-wide `self.config.debug` / `self.verbose` flags. -/
structure Config where
  engine : NiftiConverterEngine
  allow_multi_input : Bool
  overwrite_existing_file : Bool
  verbose : Bool
  debug : Bool
deriving DecidableEq, Repr

/-- One recorded backend invocation. -/
inductive BackendCall where
  | pypla (verbose : Bool) (inPath outPath logPath : String)
  | dcm2niix (cmd : List String)
deriving DecidableEq, Repr

/-- Opaque behavior of the two external backends.  A call consumes the
filesystem and either succeeds with a new filesystem or fails (Python
exception) with the filesystem as the crashed process left it. -/
structure BackendBehavior where
  pypla : Bool → String → String → String → FS → Except FS FS
  dcm2niix : List String → FS → Except FS FS

/-- Observable state threaded through one task invocation: the filesystem,
the printed messages, the backend invocations made so far, and the log
artifacts confirmed so far. -/
structure TaskState where
  fs : FS
  msgs : List String
  calls : List BackendCall
  confirmed : List String
deriving DecidableEq, Repr

/-- Python exceptions that can escape the task. -/
inductive TaskErr where
  | assertionError
  | valueError (msg : String)
  | backendError
deriving DecidableEq, Repr

/-! ## Backend adapters -/

/-- The filesystem as `NiftiConverter.plastimatch` leaves it just before
invoking `pypla.convert`: any pre-existing file at the log path removed. -/
def plastimatchPreFS (fs : FS) (logPath : String) : FS :=
  if FS.isfile fs logPath then FS.remove fs logPath else fs

/-- Adapter `NiftiConverter.plastimatch`: remove a stale log file, run
`pypla.convert`, and confirm the log artifact exactly when a file exists at
the log path afterwards.  Returns the new filesystem and whether the log
artifact was confirmed. -/
def plastimatch (beh : BackendBehavior) (verbose : Bool)
    (in_data out_data log_data : InstanceData) (fs : FS) :
    Except FS (FS × Bool) :=
  match beh.pypla verbose in_data.abspath out_data.abspath log_data.abspath
      (plastimatchPreFS fs log_data.abspath) with
  | Except.error fsFail => Except.error fsFail
  | Except.ok fs' => Except.ok (fs', FS.isfile fs' log_data.abspath)

/-- Verbosity code for dcm2niix: 2 when debugging, 1 when verbose, else 0. -/
def dcm2niixVerbosity (debug verbose : Bool) : Nat :=
  if debug then 2 else if verbose then 1 else 0

/-- Suffix asserted on the output path by `NiftiConverter.dcm2nii`. -/
def niiGzSuffix : String := ".nii.gz"

/-- The dcm2niix command line built by `NiftiConverter.dcm2nii`. -/
def dcm2niixCommand (debug verbose : Bool) (inPath outPath : String) :
    List String :=
  ["dcm2niix",
   "-o", pyDirname outPath,
   "-f", pySliceDropRight (pyBasename outPath) 7,
   "-v", toString (dcm2niixVerbosity debug verbose),
   "-z", "y",
   "-b", "n",
   inPath]

/-- The single output file dcm2niix produces for a command built by
`dcm2niixCommand`: `<dir>/<basename>.nii.gz` from the `-o` and `-f`
arguments. -/
def dcm2niixCmdOut (cmd : List String) : String :=
  ((cmd.get? 2).getD "") ++ "/" ++ ((cmd.get? 4).getD "") ++ ".nii.gz"

/-! ## Conversion task controller -/

/-- Message printed when the filtered input collection is empty. -/
def noDataMsg (instanceName : String) : String :=
  "CONVERT ERROR: no data found in instance " ++ instanceName ++ "."

/-- Warning printed when multiple inputs match but multi input is off. -/
def multiInputWarning : String :=
  "WARNING: found more than one matching file but multi file conversion is disabled. Only the first file will be converted."

/-- Message printed when the output file already exists (Python
`print(a, b)` joins the two arguments with a space). -/
def existsMsg (outPath : String) : String :=
  "CONVERT ERROR: File already exists: " ++ " " ++ outPath

/-- Message for the `raise ValueError` on an unknown engine. -/
def unknownEngineMsg (engine : NiftiConverterEngine) : String :=
  "CONVERT ERROR: unknown engine " ++ engineRepr engine ++ "."

/-- One aligned (input, output, log) artifact triple. -/
abbrev Triple := InstanceData × InstanceData × InstanceData

/-- The plastimatch branch of the conversion loop: record the invocation,
run the adapter, record the confirmed log artifact; an adapter failure
propagates as a fatal backend error. -/
def plastimatchStep (beh : BackendBehavior) (verbose : Bool)
    (in_data out_data log_data : InstanceData) (st : TaskState) :
    Except (TaskErr × TaskState) TaskState :=
  let st1 : TaskState :=
    { st with calls := st.calls ++
        [BackendCall.pypla verbose in_data.abspath out_data.abspath
          log_data.abspath] }
  match plastimatch beh verbose in_data out_data log_data st1.fs with
  | Except.error fsFail =>
      Except.error (TaskErr.backendError, { st1 with fs := fsFail })
  | Except.ok (fs', confirmedLog) =>
      Except.ok { st1 with
        fs := fs',
        confirmed := st1.confirmed ++
          (if confirmedLog then [log_data.abspath] else []) }

/-- Adapter `NiftiConverter.dcm2nii` within the loop: assert the `.nii.gz` suffix,
build the command, print it through `self.v` (which prints only when the
module is verbose; `Module.v` lives outside this file's source), record and
run the invocation with `check=True`, so a process failure propagates. -/
def dcm2niiStep (beh : BackendBehavior) (debug verbose : Bool)
    (in_data out_data : InstanceData) (st : TaskState) :
    Except (TaskErr × TaskState) TaskState :=
  if pyEndsWith out_data.abspath niiGzSuffix then
    let cmd := dcm2niixCommand debug verbose in_data.abspath out_data.abspath
    let st1 : TaskState :=
      { st with
        msgs := st.msgs ++
          (if verbose then [">> run: " ++ " " ++ String.intercalate " " cmd]
           else []),
        calls := st.calls ++ [BackendCall.dcm2niix cmd] }
    match beh.dcm2niix cmd st1.fs with
    | Except.error fsFail =>
        Except.error (TaskErr.backendError, { st1 with fs := fsFail })
    | Except.ok fs' => Except.ok { st1 with fs := fs' }
  else
    Except.error (TaskErr.assertionError, st)

/-- One iteration of the conversion loop of `NiftiConverter.task`:
skip existing outputs, then branch on the input's file type and the
configured engine. -/
def processItem (cfg : Config) (beh : BackendBehavior) (t : Triple)
    (st : TaskState) : Except (TaskErr × TaskState) TaskState :=
  let in_data := t.1
  let out_data := t.2.1
  let log_data := t.2.2
  if FS.isfile st.fs out_data.abspath && !cfg.overwrite_existing_file then
    Except.ok { st with msgs := st.msgs ++ [existsMsg out_data.abspath] }
  else if in_data.ftype = FileType.DICOM then
    match cfg.engine with
    | NiftiConverterEngine.PLASTIMATCH =>
        plastimatchStep beh cfg.verbose in_data out_data log_data st
    | NiftiConverterEngine.DCM2NIIX =>
        dcm2niiStep beh cfg.debug cfg.verbose in_data out_data st
    | NiftiConverterEngine.OTHER s =>
        Except.error
          (TaskErr.valueError (unknownEngineMsg (NiftiConverterEngine.OTHER s)),
           st)
  else if in_data.ftype = FileType.NRRD then
    plastimatchStep beh cfg.verbose in_data out_data log_data st
  else
    Except.ok st

/-- The conversion loop: items in sequence; a raised error aborts the rest. -/
def taskLoop (cfg : Config) (beh : BackendBehavior) :
    List Triple → TaskState → Except (TaskErr × TaskState) TaskState
  | [], st => Except.ok st
  | t :: rest, st =>
      match processItem cfg beh t st with
      | Except.error e => Except.error e
      | Except.ok st' => taskLoop cfg beh rest st'

/-- Index-aligned zip of the three artifact collections, mirroring
`out_datas.get(i)` / `log_datas.get(i)` during `enumerate(in_datas)`. -/
def zip3 : List InstanceData → List InstanceData → List InstanceData →
    List Triple
  | a :: as, b :: bs, c :: cs => (a, b, c) :: zip3 as bs cs
  | _, _, _ => []

/-- Controller `NiftiConverter.task`: assert aligned collection lengths, report and
return on an empty input collection, narrow to the first input when multi
input is disabled, then run the conversion loop. -/
def task (cfg : Config) (beh : BackendBehavior) (instanceName : String)
    (in_datas out_datas log_datas : List InstanceData) (fs : FS) :
    Except (TaskErr × TaskState) TaskState :=
  if in_datas.length = out_datas.length ∧
     in_datas.length = log_datas.length then
    if in_datas.length = 0 then
      Except.ok
        { fs := fs, msgs := [noDataMsg instanceName], calls := [],
          confirmed := [] }
    else
      let ins :=
        if !cfg.allow_multi_input && decide (in_datas.length > 1)
        then in_datas.take 1 else in_datas
      let warn :=
        if !cfg.allow_multi_input && decide (in_datas.length > 1)
        then [multiInputWarning] else []
      taskLoop cfg beh (zip3 ins out_datas log_datas)
        { fs := fs, msgs := warn, calls := [], confirmed := [] }
  else
    Except.error
      (TaskErr.assertionError,
       { fs := fs, msgs := [], calls := [], confirmed := [] })

/-! ## Backend locality (frame assumption on the opaque backends) -/

/-- A pyplastimatch behavior is local when a successful conversion changes
the filesystem only at the output path and the log path it was given. -/
def LocalPypla (f : Bool → String → String → String → FS → Except FS FS) :
    Prop :=
  ∀ v i o l fs fs', f v i o l fs = Except.ok fs' →
    ∀ p, p ≠ o → p ≠ l → FS.lookup fs' p = FS.lookup fs p

/-- A dcm2niix behavior is local when a successful run changes the
filesystem only at the single output file determined by its `-o` and `-f`
arguments. -/
def LocalDcm2niix (g : List String → FS → Except FS FS) : Prop :=
  ∀ cmd fs fs', g cmd fs = Except.ok fs' →
    ∀ p, p ≠ dcm2niixCmdOut cmd → FS.lookup fs' p = FS.lookup fs p

/-! ## Sample data (used by the witnesses) -/

/-- Sample backend behavior: plastimatch writes the output image and the
log file; dcm2niix writes its single output file. -/
def sampleBeh : BackendBehavior where
  pypla := fun _ _ o l fs =>
    Except.ok (FS.write (FS.write fs o "converted-image") l "conversion-log")
  dcm2niix := fun cmd fs =>
    Except.ok (FS.write fs (dcm2niixCmdOut cmd) "converted-nii")

/-- Sample backend behavior whose plastimatch run produces no log file. -/
def noLogBeh : BackendBehavior where
  pypla := fun _ _ o _ fs => Except.ok (FS.write fs o "converted-image")
  dcm2niix := fun cmd fs =>
    Except.ok (FS.write fs (dcm2niixCmdOut cmd) "converted-nii")

/-- Sample backend behavior in which every external process fails. -/
def failBeh : BackendBehavior where
  pypla := fun _ _ _ _ fs => Except.error fs
  dcm2niix := fun _ fs => Except.error fs

/-- Default configuration: plastimatch engine, no multi input, no
overwrite, quiet. -/
def cfgPlast : Config :=
  { engine := NiftiConverterEngine.PLASTIMATCH, allow_multi_input := false,
    overwrite_existing_file := false, verbose := false, debug := false }

/-- Configuration selecting the dcm2niix engine. -/
def cfgDcm : Config :=
  { cfgPlast with engine := NiftiConverterEngine.DCM2NIIX }

/-- Configuration with an engine value outside the two supported ones. -/
def cfgBad : Config :=
  { cfgPlast with engine := NiftiConverterEngine.OTHER "magic" }

/-- Configuration with multi-input conversion enabled. -/
def cfgMulti : Config :=
  { cfgPlast with allow_multi_input := true }

/-- Sample DICOM input artifacts. -/
def inDicom1 : InstanceData :=
  { abspath := "/data/dicom1", ftype := FileType.DICOM }

/-- Second sample DICOM input artifact. -/
def inDicom2 : InstanceData :=
  { abspath := "/data/dicom2", ftype := FileType.DICOM }

/-- Sample NRRD input artifact. -/
def inNrrd1 : InstanceData :=
  { abspath := "/data/img1.nrrd", ftype := FileType.NRRD }

/-- Sample input artifact of an unhandled format. -/
def inNifti1 : InstanceData :=
  { abspath := "/data/img1.nii.gz", ftype := FileType.NIFTI }

/-- Sample output artifact for the first input. -/
def outNifti1 : InstanceData :=
  { abspath := "/data/nifti/img1.nii.gz", ftype := FileType.NIFTI }

/-- Sample output artifact for the second input. -/
def outNifti2 : InstanceData :=
  { abspath := "/data/nifti/img2.nii.gz", ftype := FileType.NIFTI }

/-- Sample log artifact for the first input. -/
def logData1 : InstanceData :=
  { abspath := "/data/nifti/img1.pmconv.log", ftype := FileType.LOG }

/-- Sample log artifact for the second input. -/
def logData2 : InstanceData :=
  { abspath := "/data/nifti/img2.pmconv.log", ftype := FileType.LOG }

/-! ## Filesystem lemmas -/

theorem FS.lookup_cons_ne (p k c : String) (fs : FS) (h : p ≠ k) :
    FS.lookup ((k, c) :: fs) p = FS.lookup fs p := by
  simp [FS.lookup, List.lookup, beq_eq_false_iff_ne.mpr h]

theorem FS.lookup_remove_self (fs : FS) (p : String) :
    FS.lookup (FS.remove fs p) p = none := by
  induction fs with
  | nil => rfl
  | cons e rest ih =>
    rcases e with ⟨k, v⟩
    by_cases h : k = p
    · simpa [FS.remove, List.filter_cons, h] using ih
    · have hk : p ≠ k := fun hpk => h hpk.symm
      simpa [FS.remove, FS.lookup, List.filter_cons, h, List.lookup,
        beq_eq_false_iff_ne.mpr hk] using ih

theorem FS.lookup_remove_ne (fs : FS) (p q : String) (h : p ≠ q) :
    FS.lookup (FS.remove fs q) p = FS.lookup fs p := by
  induction fs with
  | nil => rfl
  | cons e rest ih =>
    rcases e with ⟨k, v⟩
    by_cases hk : k = q
    · subst hk
      simpa [FS.remove, FS.lookup, List.filter_cons, List.lookup,
        beq_eq_false_iff_ne.mpr h] using ih
    · by_cases hpk : p = k
      · simp [FS.remove, FS.lookup, List.filter_cons, hk, List.lookup, hpk]
      · simpa [FS.remove, FS.lookup, List.filter_cons, hk, List.lookup,
          beq_eq_false_iff_ne.mpr hpk] using ih

theorem FS.lookup_none_of_not_isfile (fs : FS) (p : String)
    (h : FS.isfile fs p = false) : FS.lookup fs p = none := by
  unfold FS.isfile at h
  cases hl : FS.lookup fs p with
  | none => rfl
  | some c => rw [hl] at h; cases h

theorem plastimatchPreFS_lookup_self (fs : FS) (l : String) :
    FS.lookup (plastimatchPreFS fs l) l = none := by
  unfold plastimatchPreFS
  by_cases h : FS.isfile fs l
  · simp [h, FS.lookup_remove_self]
  · simp only [h, Bool.false_eq_true, if_false]
    exact FS.lookup_none_of_not_isfile fs l (by simpa using h)

theorem plastimatchPreFS_lookup_ne (fs : FS) (l p : String) (h : p ≠ l) :
    FS.lookup (plastimatchPreFS fs l) p = FS.lookup fs p := by
  unfold plastimatchPreFS
  by_cases hf : FS.isfile fs l
  · simp [hf, FS.lookup_remove_ne fs p l h]
  · simp [hf]

/-! ## Locality of the sample behaviors -/

theorem sampleBeh_localPypla : LocalPypla sampleBeh.pypla := by
  intro v i o l fs fs' h p hpo hpl
  simp only [sampleBeh, Except.ok.injEq] at h
  subst h
  rw [FS.write, FS.write, FS.lookup_cons_ne _ _ _ _ hpl,
    FS.lookup_cons_ne _ _ _ _ hpo]

theorem sampleBeh_localDcm : LocalDcm2niix sampleBeh.dcm2niix := by
  intro cmd fs fs' h p hp
  simp only [sampleBeh, Except.ok.injEq] at h
  subst h
  rw [FS.write, FS.lookup_cons_ne _ _ _ _ hp]

theorem noLogBeh_localPypla : LocalPypla noLogBeh.pypla := by
  intro v i o l fs fs' h p hpo hpl
  simp only [noLogBeh, Except.ok.injEq] at h
  subst h
  rw [FS.write, FS.lookup_cons_ne _ _ _ _ hpo]

theorem noLogBeh_localDcm : LocalDcm2niix noLogBeh.dcm2niix := by
  intro cmd fs fs' h p hp
  simp only [noLogBeh, Except.ok.injEq] at h
  subst h
  rw [FS.write, FS.lookup_cons_ne _ _ _ _ hp]

/-! ## Loop unfolding lemmas -/

theorem taskLoop_nil (cfg : Config) (beh : BackendBehavior) (st : TaskState) :
    taskLoop cfg beh [] st = Except.ok st := rfl

theorem taskLoop_cons (cfg : Config) (beh : BackendBehavior) (t : Triple)
    (rest : List Triple) (st : TaskState) :
    taskLoop cfg beh (t :: rest) st =
      match processItem cfg beh t st with
      | Except.error e => Except.error e
      | Except.ok st' => taskLoop cfg beh rest st' := rfl

theorem taskLoop_cons_ok (cfg : Config) (beh : BackendBehavior) (t : Triple)
    (rest : List Triple) (st st' : TaskState)
    (h : processItem cfg beh t st = Except.ok st') :
    taskLoop cfg beh (t :: rest) st = taskLoop cfg beh rest st' := by
  rw [taskLoop_cons, h]

theorem taskLoop_cons_error (cfg : Config) (beh : BackendBehavior)
    (t : Triple) (rest : List Triple) (st : TaskState)
    (e : TaskErr × TaskState) (h : processItem cfg beh t st = Except.error e) :
    taskLoop cfg beh (t :: rest) st = Except.error e := by
  rw [taskLoop_cons, h]

theorem taskLoop_single_ok (cfg : Config) (beh : BackendBehavior) (t : Triple)
    (st st' : TaskState) (h : taskLoop cfg beh [t] st = Except.ok st') :
    processItem cfg beh t st = Except.ok st' := by
  rw [taskLoop_cons] at h
  cases hpi : processItem cfg beh t st with
  | error e => rw [hpi] at h; cases h
  | ok s2 =>
    rw [hpi] at h
    have h2 : taskLoop cfg beh [] s2 = Except.ok st' := h
    rw [taskLoop_nil] at h2
    exact h2

/-! ## Shape of one loop iteration -/

theorem plastimatchStep_ok_shape (beh : BackendBehavior) (v : Bool)
    (i o l : InstanceData) (st st' : TaskState)
    (h : plastimatchStep beh v i o l st = Except.ok st') :
    st'.msgs = st.msgs ∧
    st'.calls = st.calls ++ [BackendCall.pypla v i.abspath o.abspath l.abspath] ∧
    (LocalPypla beh.pypla →
      ∀ p, p ≠ o.abspath → p ≠ l.abspath →
        FS.lookup st'.fs p = FS.lookup st.fs p) := by
  simp only [plastimatchStep, plastimatch] at h
  rcases hp : beh.pypla v i.abspath o.abspath l.abspath
      (plastimatchPreFS st.fs l.abspath) with fsF | fs2
  · rw [hp] at h
    exact Except.noConfusion h
  · rw [hp] at h
    cases h
    refine ⟨rfl, rfl, ?_⟩
    intro hloc p hpo hpl
    have h1 := hloc _ _ _ _ _ _ hp p hpo hpl
    rw [h1, plastimatchPreFS_lookup_ne st.fs l.abspath p hpl]

theorem dcm2niiStep_ok_shape (beh : BackendBehavior) (d v : Bool)
    (i o : InstanceData) (st st' : TaskState)
    (h : dcm2niiStep beh d v i o st = Except.ok st') :
    (∃ ms, st'.msgs = st.msgs ++ ms) ∧
    st'.calls = st.calls ++
      [BackendCall.dcm2niix (dcm2niixCommand d v i.abspath o.abspath)] ∧
    (LocalDcm2niix beh.dcm2niix →
      ∀ p, p ≠ dcm2niixCmdOut (dcm2niixCommand d v i.abspath o.abspath) →
        FS.lookup st'.fs p = FS.lookup st.fs p) := by
  simp only [dcm2niiStep] at h
  split at h
  · rcases hg : beh.dcm2niix (dcm2niixCommand d v i.abspath o.abspath) st.fs
        with fsF | fs2
    · rw [hg] at h
      exact Except.noConfusion h
    · rw [hg] at h
      cases h
      refine ⟨⟨_, rfl⟩, rfl, ?_⟩
      intro hloc p hp
      exact hloc _ _ _ hg p hp
  · exact Except.noConfusion h

theorem processItem_ok_shape (cfg : Config) (beh : BackendBehavior)
    (i o l : InstanceData) (st st' : TaskState)
    (h : processItem cfg beh (i, o, l) st = Except.ok st') :
    (∃ ms, st'.msgs = st.msgs ++ ms) ∧
    (st'.calls = st.calls ∨
     st'.calls = st.calls ++
       [BackendCall.pypla cfg.verbose i.abspath o.abspath l.abspath] ∨
     st'.calls = st.calls ++
       [BackendCall.dcm2niix
         (dcm2niixCommand cfg.debug cfg.verbose i.abspath o.abspath)]) ∧
    (LocalPypla beh.pypla → LocalDcm2niix beh.dcm2niix →
      ∀ p, p ≠ o.abspath → p ≠ l.abspath →
        p ≠ dcm2niixCmdOut
              (dcm2niixCommand cfg.debug cfg.verbose i.abspath o.abspath) →
        FS.lookup st'.fs p = FS.lookup st.fs p) := by
  simp only [processItem] at h
  split at h
  · cases h
    exact ⟨⟨[existsMsg o.abspath], rfl⟩, Or.inl rfl, fun _ _ p _ _ _ => rfl⟩
  · split at h
    · split at h
      · have hs := plastimatchStep_ok_shape _ _ _ _ _ _ _ h
        refine ⟨⟨[], by rw [hs.1, List.append_nil]⟩, Or.inr (Or.inl hs.2.1), ?_⟩
        intro hl1 _ p hpo hpl _
        exact hs.2.2 hl1 p hpo hpl
      · have hs := dcm2niiStep_ok_shape _ _ _ _ _ _ _ h
        refine ⟨hs.1, Or.inr (Or.inr hs.2.1), ?_⟩
        intro _ hl2 p _ _ hpc
        exact hs.2.2 hl2 p hpc
      · exact Except.noConfusion h
    · split at h
      · have hs := plastimatchStep_ok_shape _ _ _ _ _ _ _ h
        refine ⟨⟨[], by rw [hs.1, List.append_nil]⟩, Or.inr (Or.inl hs.2.1), ?_⟩
        intro hl1 _ p hpo hpl _
        exact hs.2.2 hl1 p hpo hpl
      · cases h
        exact ⟨⟨[], (List.append_nil _).symm⟩, Or.inl rfl, fun _ _ p _ _ _ => rfl⟩

theorem task_single (cfg : Config) (beh : BackendBehavior)
    (instanceName : String) (a b c : InstanceData) (fs : FS) :
    task cfg beh instanceName [a] [b] [c] fs =
      taskLoop cfg beh [(a, b, c)]
        { fs := fs, msgs := [], calls := [], confirmed := [] } := by
  simp [task, zip3]

/-! ## Claim theorems -/

/-- C5: for every invocation of the task with an empty resolved input
collection, exactly one "no data found" error message is reported for the
instance and the task returns normally with no side effects: the
filesystem is unchanged, no backend is invoked, no log is confirmed and no
exception is raised. -/
theorem task_empty_input_reports_and_returns (cfg : Config)
    (beh : BackendBehavior) (instanceName : String) (fs : FS) :
    task cfg beh instanceName [] [] [] fs =
      Except.ok { fs := fs, msgs := [noDataMsg instanceName], calls := [],
                  confirmed := [] } := rfl

/-- C2: for an item whose output artifact path already exists as a file
and with overwriting disabled, the loop iteration reports the "already
exists" message and otherwise returns its state unchanged (same
filesystem, so the existing file keeps its contents byte for byte; no
backend call recorded; no exception), and the loop continues with the next
item from that state. -/
theorem processItem_existing_output_skips (cfg : Config)
    (beh : BackendBehavior) (t : Triple) (rest : List Triple) (st : TaskState)
    (hov : cfg.overwrite_existing_file = false)
    (hex : FS.isfile st.fs t.2.1.abspath = true) :
    processItem cfg beh t st =
      Except.ok { st with msgs := st.msgs ++ [existsMsg t.2.1.abspath] } ∧
    taskLoop cfg beh (t :: rest) st =
      taskLoop cfg beh rest
        { st with msgs := st.msgs ++ [existsMsg t.2.1.abspath] } := by
  have h1 : processItem cfg beh t st =
      Except.ok { st with msgs := st.msgs ++ [existsMsg t.2.1.abspath] } := by
    simp only [processItem, hex, hov]
    rfl
  exact ⟨h1, taskLoop_cons_ok cfg beh t rest st _ h1⟩

/-- C2 witness: a concrete item whose output file exists, under the
default configuration, is reported and skipped with the filesystem
untouched. -/
theorem processItem_existing_output_skips_witness :
    cfgPlast.overwrite_existing_file = false ∧
    FS.isfile [(outNifti1.abspath, "old-content")] outNifti1.abspath = true ∧
    processItem cfgPlast sampleBeh (inDicom1, outNifti1, logData1)
        { fs := [(outNifti1.abspath, "old-content")], msgs := [], calls := [],
          confirmed := [] } =
      Except.ok
        { fs := [(outNifti1.abspath, "old-content")],
          msgs := [existsMsg outNifti1.abspath], calls := [],
          confirmed := [] } :=
  ⟨rfl, by decide,
    (processItem_existing_output_skips cfgPlast sampleBeh
      (inDicom1, outNifti1, logData1) []
      { fs := [(outNifti1.abspath, "old-content")], msgs := [], calls := [],
        confirmed := [] } rfl (by decide)).1⟩

/-- C10: an item whose input format is neither DICOM nor NRRD, and which
is not skipped by the existing-output guard, is ignored silently: the loop
iteration returns its state completely unchanged (no message, no backend
call, no filesystem change, no error) and processing continues with the
next item. -/
theorem processItem_unhandled_format_noop (cfg : Config)
    (beh : BackendBehavior) (t : Triple) (rest : List Triple) (st : TaskState)
    (h1 : t.1.ftype ≠ FileType.DICOM) (h2 : t.1.ftype ≠ FileType.NRRD)
    (hsk : (FS.isfile st.fs t.2.1.abspath && !cfg.overwrite_existing_file)
      = false) :
    processItem cfg beh t st = Except.ok st ∧
    taskLoop cfg beh (t :: rest) st = taskLoop cfg beh rest st := by
  have hp : processItem cfg beh t st = Except.ok st := by
    simp only [processItem, hsk]
    simp [h1, h2]
  exact ⟨hp, taskLoop_cons_ok cfg beh t rest st st hp⟩

/-- C10 witness: a NIfTI-format input with no pre-existing output is
silently ignored. -/
theorem processItem_unhandled_format_noop_witness :
    inNifti1.ftype ≠ FileType.DICOM ∧ inNifti1.ftype ≠ FileType.NRRD ∧
    processItem cfgPlast sampleBeh (inNifti1, outNifti1, logData1)
        { fs := [], msgs := [], calls := [], confirmed := [] } =
      Except.ok { fs := [], msgs := [], calls := [], confirmed := [] } :=
  ⟨by decide, by decide,
    (processItem_unhandled_format_noop cfgPlast sampleBeh
      (inNifti1, outNifti1, logData1) []
      { fs := [], msgs := [], calls := [], confirmed := [] }
      (by decide) (by decide) (by decide)).1⟩

/-- C3: a processed NRRD item is dispatched to the plastimatch adapter for
every possible value of the configured engine, including values other than
the two supported engines: the loop iteration equals the plastimatch
branch, which does not depend on the engine at all. -/
theorem nrrd_dispatches_plastimatch_any_engine (cfg : Config)
    (beh : BackendBehavior) (i o l : InstanceData) (st : TaskState)
    (hft : i.ftype = FileType.NRRD)
    (hsk : (FS.isfile st.fs o.abspath && !cfg.overwrite_existing_file)
      = false) :
    ∀ e : NiftiConverterEngine,
      processItem { cfg with engine := e } beh (i, o, l) st =
        plastimatchStep beh cfg.verbose i o l st := by
  intro e
  simp only [processItem, hft, hsk]
  simp

/-- C3 witness: a concrete NRRD item is sent to the plastimatch adapter
even under an engine value outside the two supported ones. -/
theorem nrrd_dispatches_plastimatch_any_engine_witness :
    inNrrd1.ftype = FileType.NRRD ∧
    processItem cfgBad sampleBeh (inNrrd1, outNifti1, logData1)
        { fs := [], msgs := [], calls := [], confirmed := [] } =
      plastimatchStep sampleBeh false inNrrd1 outNifti1 logData1
        { fs := [], msgs := [], calls := [], confirmed := [] } :=
  ⟨rfl,
    nrrd_dispatches_plastimatch_any_engine cfgPlast sampleBeh inNrrd1
      outNifti1 logData1
      { fs := [], msgs := [], calls := [], confirmed := [] }
      rfl (by decide) (NiftiConverterEngine.OTHER "magic")⟩

/-- C4: a DICOM item reached while the configured engine is neither
supported value makes the loop iteration raise the fatal unknown-engine
ValueError with the state untouched (so no file has been written and no
backend has been invoked for it), the loop aborts there so the remaining
items are not processed, and a whole task invocation on such a single
DICOM input fails with that error before writing any file. -/
theorem dicom_unknown_engine_raises (cfg : Config) (beh : BackendBehavior)
    (t : Triple) (rest : List Triple) (st : TaskState) (s : String)
    (heng : cfg.engine = NiftiConverterEngine.OTHER s)
    (hft : t.1.ftype = FileType.DICOM)
    (hsk : (FS.isfile st.fs t.2.1.abspath && !cfg.overwrite_existing_file)
      = false) :
    processItem cfg beh t st =
      Except.error
        (TaskErr.valueError (unknownEngineMsg (NiftiConverterEngine.OTHER s)),
         st) ∧
    taskLoop cfg beh (t :: rest) st =
      Except.error
        (TaskErr.valueError (unknownEngineMsg (NiftiConverterEngine.OTHER s)),
         st) ∧
    (∀ instanceName fs,
      (FS.isfile fs t.2.1.abspath && !cfg.overwrite_existing_file) = false →
      task cfg beh instanceName [t.1] [t.2.1] [t.2.2] fs =
        Except.error
          (TaskErr.valueError
            (unknownEngineMsg (NiftiConverterEngine.OTHER s)),
           { fs := fs, msgs := [], calls := [], confirmed := [] })) := by
  have hpi : ∀ st2 : TaskState,
      (FS.isfile st2.fs t.2.1.abspath && !cfg.overwrite_existing_file)
        = false →
      processItem cfg beh t st2 =
        Except.error
          (TaskErr.valueError
            (unknownEngineMsg (NiftiConverterEngine.OTHER s)), st2) := by
    intro st2 h2
    simp only [processItem, h2, hft, heng]
    rfl
  refine ⟨hpi st hsk, taskLoop_cons_error cfg beh t rest st _ (hpi st hsk),
    ?_⟩
  intro instanceName fs h2
  have hloop : taskLoop cfg beh [t]
      { fs := fs, msgs := [], calls := [], confirmed := [] } =
      Except.error
        (TaskErr.valueError (unknownEngineMsg (NiftiConverterEngine.OTHER s)),
         { fs := fs, msgs := [], calls := [], confirmed := [] }) :=
    taskLoop_cons_error cfg beh t [] _ _
      (hpi { fs := fs, msgs := [], calls := [], confirmed := [] } h2)
  rw [task_single]
  exact hloop

/-- C4 witness: a single DICOM input under the engine value "magic" makes
the task fail with the unknown-engine error and an untouched filesystem. -/
theorem dicom_unknown_engine_raises_witness :
    cfgBad.engine = NiftiConverterEngine.OTHER "magic" ∧
    inDicom1.ftype = FileType.DICOM ∧
    processItem cfgBad sampleBeh (inDicom1, outNifti1, logData1)
        { fs := [], msgs := [], calls := [], confirmed := [] } =
      Except.error
        (TaskErr.valueError
          (unknownEngineMsg (NiftiConverterEngine.OTHER "magic")),
         { fs := [], msgs := [], calls := [], confirmed := [] }) :=
  ⟨rfl, rfl,
    (dicom_unknown_engine_raises cfgBad sampleBeh
      (inDicom1, outNifti1, logData1) []
      { fs := [], msgs := [], calls := [], confirmed := [] } "magic"
      rfl rfl (by decide)).1⟩

/-- C6: for every plastimatch adapter call, the filesystem handed to the
external converter has no file at the log path (any pre-existing log file
was deleted first), and when the external run succeeds the adapter
succeeds as well - regardless of whether a log file exists afterwards -
returning the confirmation flag exactly when a file exists at the log
path. -/
theorem plastimatch_log_handling (beh : BackendBehavior) (v : Bool)
    (i o l : InstanceData) (fs fs' : FS)
    (hok : beh.pypla v i.abspath o.abspath l.abspath
        (plastimatchPreFS fs l.abspath) = Except.ok fs') :
    FS.lookup (plastimatchPreFS fs l.abspath) l.abspath = none ∧
    plastimatch beh v i o l fs =
      Except.ok (fs', FS.isfile fs' l.abspath) := by
  refine ⟨plastimatchPreFS_lookup_self fs l.abspath, ?_⟩
  simp only [plastimatch, hok]

/-- C6 witness: with a stale log file on disk and a backend that produces
no log, the adapter deletes the stale log before the call, raises no error
for the missing log, and leaves the log artifact unconfirmed. -/
theorem plastimatch_log_handling_witness :
    noLogBeh.pypla false inNrrd1.abspath outNifti1.abspath logData1.abspath
        (plastimatchPreFS [(logData1.abspath, "stale-log")] logData1.abspath)
      = Except.ok [(outNifti1.abspath, "converted-image")] ∧
    FS.lookup
        (plastimatchPreFS [(logData1.abspath, "stale-log")] logData1.abspath)
        logData1.abspath = none ∧
    plastimatch noLogBeh false inNrrd1 outNifti1 logData1
        [(logData1.abspath, "stale-log")]
      = Except.ok ([(outNifti1.abspath, "converted-image")], false) :=
  ⟨rfl,
    (plastimatch_log_handling noLogBeh false inNrrd1 outNifti1 logData1
      [(logData1.abspath, "stale-log")] [(outNifti1.abspath, "converted-image")]
      rfl).1,
    (plastimatch_log_handling noLogBeh false inNrrd1 outNifti1 logData1
      [(logData1.abspath, "stale-log")] [(outNifti1.abspath, "converted-image")]
      rfl).2⟩

/-- C8: a failure raised by an external backend process is not caught
anywhere in the task.  For an item processed with the dcm2niix engine
(which runs with check enabled, so a non-zero exit raises) a backend
failure makes the loop iteration itself fail and the loop abort with that
fatal error, so the remaining items of the batch are not processed and no
retry is attempted; the same holds for a pyplastimatch failure under the
plastimatch engine. -/
theorem backend_failure_fatal (cfg : Config) (beh : BackendBehavior)
    (t : Triple) (rest : List Triple) (st : TaskState) (fsF : FS)
    (hft : t.1.ftype = FileType.DICOM)
    (hsk : (FS.isfile st.fs t.2.1.abspath && !cfg.overwrite_existing_file)
      = false) :
    (cfg.engine = NiftiConverterEngine.DCM2NIIX →
      pyEndsWith t.2.1.abspath niiGzSuffix = true →
      beh.dcm2niix
          (dcm2niixCommand cfg.debug cfg.verbose t.1.abspath t.2.1.abspath)
          st.fs = Except.error fsF →
      processItem cfg beh t st =
        Except.error (TaskErr.backendError,
          { fs := fsF,
            msgs := st.msgs ++
              (if cfg.verbose then
                [">> run: " ++ " " ++ String.intercalate " "
                  (dcm2niixCommand cfg.debug cfg.verbose t.1.abspath
                    t.2.1.abspath)]
               else []),
            calls := st.calls ++
              [BackendCall.dcm2niix
                (dcm2niixCommand cfg.debug cfg.verbose t.1.abspath
                  t.2.1.abspath)],
            confirmed := st.confirmed }) ∧
      taskLoop cfg beh (t :: rest) st =
        Except.error (TaskErr.backendError,
          { fs := fsF,
            msgs := st.msgs ++
              (if cfg.verbose then
                [">> run: " ++ " " ++ String.intercalate " "
                  (dcm2niixCommand cfg.debug cfg.verbose t.1.abspath
                    t.2.1.abspath)]
               else []),
            calls := st.calls ++
              [BackendCall.dcm2niix
                (dcm2niixCommand cfg.debug cfg.verbose t.1.abspath
                  t.2.1.abspath)],
            confirmed := st.confirmed })) ∧
    (cfg.engine = NiftiConverterEngine.PLASTIMATCH →
      beh.pypla cfg.verbose t.1.abspath t.2.1.abspath t.2.2.abspath
          (plastimatchPreFS st.fs t.2.2.abspath) = Except.error fsF →
      processItem cfg beh t st =
        Except.error (TaskErr.backendError,
          { fs := fsF, msgs := st.msgs,
            calls := st.calls ++
              [BackendCall.pypla cfg.verbose t.1.abspath t.2.1.abspath
                t.2.2.abspath],
            confirmed := st.confirmed }) ∧
      taskLoop cfg beh (t :: rest) st =
        Except.error (TaskErr.backendError,
          { fs := fsF, msgs := st.msgs,
            calls := st.calls ++
              [BackendCall.pypla cfg.verbose t.1.abspath t.2.1.abspath
                t.2.2.abspath],
            confirmed := st.confirmed })) := by
  constructor
  · intro heng hnii hfail
    have hpi : processItem cfg beh t st =
        Except.error (TaskErr.backendError,
          { fs := fsF,
            msgs := st.msgs ++
              (if cfg.verbose then
                [">> run: " ++ " " ++ String.intercalate " "
                  (dcm2niixCommand cfg.debug cfg.verbose t.1.abspath
                    t.2.1.abspath)]
               else []),
            calls := st.calls ++
              [BackendCall.dcm2niix
                (dcm2niixCommand cfg.debug cfg.verbose t.1.abspath
                  t.2.1.abspath)],
            confirmed := st.confirmed }) := by
      simp only [processItem, hsk, hft, heng]
      simp only [dcm2niiStep, hnii, if_true]
      simp only [hfail]
      rfl
    exact ⟨hpi, taskLoop_cons_error cfg beh t rest st _ hpi⟩
  · intro heng hfail
    have hpi : processItem cfg beh t st =
        Except.error (TaskErr.backendError,
          { fs := fsF, msgs := st.msgs,
            calls := st.calls ++
              [BackendCall.pypla cfg.verbose t.1.abspath t.2.1.abspath
                t.2.2.abspath],
            confirmed := st.confirmed }) := by
      simp only [processItem, hsk, hft, heng]
      simp only [plastimatchStep, plastimatch]
      simp only [hfail]
      rfl
    exact ⟨hpi, taskLoop_cons_error cfg beh t rest st _ hpi⟩

/-- C8 witness: a dcm2niix process failure on a concrete DICOM item aborts
the whole loop with the fatal backend error, leaving the second item
unprocessed. -/
theorem backend_failure_fatal_witness :
    inDicom1.ftype = FileType.DICOM ∧
    cfgDcm.engine = NiftiConverterEngine.DCM2NIIX ∧
    failBeh.dcm2niix
        (dcm2niixCommand false false inDicom1.abspath outNifti1.abspath) []
      = Except.error [] ∧
    taskLoop cfgDcm failBeh
        [(inDicom1, outNifti1, logData1), (inDicom2, outNifti2, logData2)]
        { fs := [], msgs := [], calls := [], confirmed := [] } =
      Except.error (TaskErr.backendError,
        { fs := [], msgs := [],
          calls := [BackendCall.dcm2niix
            (dcm2niixCommand false false inDicom1.abspath outNifti1.abspath)],
          confirmed := [] }) :=
  ⟨rfl, rfl, rfl,
    ((backend_failure_fatal cfgDcm failBeh (inDicom1, outNifti1, logData1)
      [(inDicom2, outNifti2, logData2)]
      { fs := [], msgs := [], calls := [], confirmed := [] } []
      rfl (by decide)).1 rfl (by decide) rfl).2⟩

theorem pyBasename_split_niiGz (s : String)
    (h : pyEndsWith s niiGzSuffix = true) :
    pySliceDropRight (pyBasename s) 7 ++ niiGzSuffix = pyBasename s := by
  have hsuf : niiGzSuffix.toList <:+ s.toList := by
    unfold pyEndsWith at h
    exact List.isSuffixOf_iff_suffix.mp h
  obtain ⟨t, ht⟩ := hsuf
  have hrev : s.toList.reverse
      = 'z' :: 'g' :: '.' :: 'i' :: 'i' :: 'n' :: '.' :: t.reverse := by
    rw [← ht]
    rw [show niiGzSuffix.toList = ['.', 'n', 'i', 'i', '.', 'g', 'z'] from
      rfl]
    rw [List.reverse_append]
    rfl
  have htw : List.takeWhile (fun c => decide (c ≠ '/')) s.toList.reverse
      = 'z' :: 'g' :: '.' :: 'i' :: 'i' :: 'n' :: '.' :: 
          List.takeWhile (fun c => decide (c ≠ '/')) t.reverse := by
    rw [hrev]
    simp [List.takeWhile_cons]
  set tw := List.takeWhile (fun c => decide (c ≠ '/')) t.reverse with htwdef
  have hfin : tw.reverse ++ ['.', 'n', 'i', 'i', '.', 'g', 'z']
      = ('z' :: 'g' :: '.' :: 'i' :: 'i' :: 'n' :: '.' :: tw).reverse := by
    rw [show ('z' :: 'g' :: '.' :: 'i' :: 'i' :: 'n' :: '.' :: tw)
          = ['z', 'g', '.', 'i', 'i', 'n', '.'] ++ tw from rfl,
        List.reverse_append]
    rfl
  unfold pyBasename pySliceDropRight
  rw [htw]
  rw [show (String.mk (('z' :: 'g' :: '.' :: 'i' :: 'i' :: 'n' :: '.' :: tw).reverse)).toList
        = ('z' :: 'g' :: '.' :: 'i' :: 'i' :: 'n' :: '.' :: tw).reverse from rfl]
  rw [List.reverse_reverse]
  show String.mk tw.reverse ++ niiGzSuffix
    = String.mk (('z' :: 'g' :: '.' :: 'i' :: 'i' :: 'n' :: '.' :: tw).reverse)
  calc String.mk tw.reverse ++ niiGzSuffix
      = String.mk (tw.reverse ++ ['.', 'n', 'i', 'i', '.', 'g', 'z']) := rfl
    _ = String.mk (('z' :: 'g' :: '.' :: 'i' :: 'i' :: 'n' :: '.' :: tw).reverse) := by
        rw [hfin]

/-- C7: a dcm2niix adapter call whose output path ends in ".nii.gz"
invokes the external process with exactly the command
`dcm2niix -o <dir> -f <basename> -v <verbosity> -z y -b n <input>` in that
argument order, where the `-o` and `-f` arguments are the directory part
of the output path and its filename with the 7-character ".nii.gz" suffix
stripped (so the `-f` argument plus the suffix is exactly the filename),
and the verbosity code is one of 0, 1, 2 derived from the debug/verbose
settings. -/
theorem dcm2niix_command_exact (beh : BackendBehavior) (debug verbose : Bool)
    (i o : InstanceData) (st : TaskState) (fs' : FS)
    (hnii : pyEndsWith o.abspath niiGzSuffix = true)
    (hok : beh.dcm2niix (dcm2niixCommand debug verbose i.abspath o.abspath)
        st.fs = Except.ok fs') :
    dcm2niiStep beh debug verbose i o st =
      Except.ok
        { fs := fs',
          msgs := st.msgs ++
            (if verbose then
              [">> run: " ++ " " ++ String.intercalate " "
                (dcm2niixCommand debug verbose i.abspath o.abspath)]
             else []),
          calls := st.calls ++
            [BackendCall.dcm2niix
              (dcm2niixCommand debug verbose i.abspath o.abspath)],
          confirmed := st.confirmed } ∧
    dcm2niixCommand debug verbose i.abspath o.abspath =
      ["dcm2niix", "-o", pyDirname o.abspath,
       "-f", pySliceDropRight (pyBasename o.abspath) 7,
       "-v", toString (dcm2niixVerbosity debug verbose),
       "-z", "y", "-b", "n", i.abspath] ∧
    (dcm2niixVerbosity debug verbose = 0 ∨
     dcm2niixVerbosity debug verbose = 1 ∨
     dcm2niixVerbosity debug verbose = 2) ∧
    pySliceDropRight (pyBasename o.abspath) 7 ++ niiGzSuffix
      = pyBasename o.abspath := by
  refine ⟨?_, rfl, ?_, pyBasename_split_niiGz o.abspath hnii⟩
  · simp only [dcm2niiStep, hnii, if_true]
    simp only [hok]
  · cases debug <;> cases verbose <;> simp [dcm2niixVerbosity]

/-- C7 witness: a concrete call with an output path in a directory shows
the exact command; the verbose flag maps to verbosity code 1. -/
theorem dcm2niix_command_exact_witness :
    pyEndsWith outNifti1.abspath niiGzSuffix = true ∧
    dcm2niixCommand false true inDicom1.abspath outNifti1.abspath =
      ["dcm2niix", "-o", "/data/nifti", "-f", "img1", "-v", "1",
       "-z", "y", "-b", "n", "/data/dicom1"] ∧
    pySliceDropRight (pyBasename outNifti1.abspath) 7 ++ niiGzSuffix
      = pyBasename outNifti1.abspath :=
  ⟨by decide,
    by
      have h := (dcm2niix_command_exact sampleBeh false true inDicom1
        outNifti1 { fs := [], msgs := [], calls := [], confirmed := [] }
        (FS.write []
          (dcm2niixCmdOut
            (dcm2niixCommand false true inDicom1.abspath outNifti1.abspath))
          "converted-nii")
        (by decide) rfl).2.1
      rw [h]
      decide,
    (dcm2niix_command_exact sampleBeh false true inDicom1 outNifti1
      { fs := [], msgs := [], calls := [], confirmed := [] }
      (FS.write []
        (dcm2niixCmdOut
          (dcm2niixCommand false true inDicom1.abspath outNifti1.abspath))
        "converted-nii")
      (by decide) rfl).2.2.2⟩

theorem zip3_snd_mem :
    ∀ (as bs cs : List InstanceData) (t : Triple),
      t ∈ zip3 as bs cs → t.2.1 ∈ bs := by
  intro as
  induction as with
  | nil => intro bs cs t ht; simp [zip3] at ht
  | cons a as' ih =>
    intro bs cs t ht
    cases bs with
    | nil => simp [zip3] at ht
    | cons b bs' =>
      cases cs with
      | nil => simp [zip3] at ht
      | cons c cs' =>
        simp only [zip3, List.mem_cons] at ht
        rcases ht with h | h
        · rw [h]; exact List.mem_cons_self b bs'
        · exact List.mem_cons_of_mem b (ih bs' cs' t h)

theorem taskLoop_all_existing (cfg : Config) (beh : BackendBehavior)
    (hov : cfg.overwrite_existing_file = false) :
    ∀ (ts : List Triple) (st : TaskState),
      (∀ t ∈ ts, FS.isfile st.fs t.2.1.abspath = true) →
      taskLoop cfg beh ts st =
        Except.ok { st with
          msgs := st.msgs ++ ts.map (fun t => existsMsg t.2.1.abspath) } := by
  intro ts
  induction ts with
  | nil =>
    intro st hex
    rw [taskLoop_nil]
    simp
  | cons t rest ih =>
    intro st hex
    have ht := hex t (List.mem_cons_self t rest)
    have h1 := (processItem_existing_output_skips cfg beh t rest st hov ht).1
    rw [taskLoop_cons_ok cfg beh t rest st _ h1]
    rw [ih { st with msgs := st.msgs ++ [existsMsg t.2.1.abspath] }
      (fun u hu => hex u (List.mem_cons_of_mem t hu))]
    simp

theorem task_nonempty (cfg : Config) (beh : BackendBehavior)
    (instanceName : String) (ins outs logs : List InstanceData) (fs : FS)
    (hlo : ins.length = outs.length) (hll : ins.length = logs.length)
    (hne : ins ≠ []) :
    task cfg beh instanceName ins outs logs fs =
      taskLoop cfg beh
        (zip3 (if !cfg.allow_multi_input && decide (ins.length > 1)
               then ins.take 1 else ins) outs logs)
        { fs := fs,
          msgs := if !cfg.allow_multi_input && decide (ins.length > 1)
                  then [multiInputWarning] else [],
          calls := [], confirmed := [] } := by
  unfold task
  rw [if_pos ⟨hlo, hll⟩,
    if_neg (fun h0 => hne (List.length_eq_zero.mp h0))]

theorem task_nonempty_narrowing (cfg : Config) (beh : BackendBehavior)
    (instanceName : String) (ins outs logs : List InstanceData) (fs : FS)
    (hlo : ins.length = outs.length) (hll : ins.length = logs.length)
    (hne : ins ≠ [])
    (hc : (!cfg.allow_multi_input && decide (ins.length > 1)) = true) :
    task cfg beh instanceName ins outs logs fs =
      taskLoop cfg beh (zip3 (ins.take 1) outs logs)
        { fs := fs, msgs := [multiInputWarning], calls := [],
          confirmed := [] } := by
  rw [task_nonempty cfg beh instanceName ins outs logs fs hlo hll hne, hc]
  rfl

theorem task_nonempty_no_narrowing (cfg : Config) (beh : BackendBehavior)
    (instanceName : String) (ins outs logs : List InstanceData) (fs : FS)
    (hlo : ins.length = outs.length) (hll : ins.length = logs.length)
    (hne : ins ≠ [])
    (hc : (!cfg.allow_multi_input && decide (ins.length > 1)) = false) :
    task cfg beh instanceName ins outs logs fs =
      taskLoop cfg beh (zip3 ins outs logs)
        { fs := fs, msgs := [], calls := [], confirmed := [] } := by
  rw [task_nonempty cfg beh instanceName ins outs logs fs hlo hll hne, hc]
  rfl

/-- C9: running the task on an instance all of whose output files already
exist, with overwriting disabled, succeeds while invoking no backend and
leaving the filesystem (hence every output file) unchanged, and reports an
"already exists" skip message for each processed item - exactly what a
second run over an already-converted instance observes. -/
theorem task_second_run_idempotent (cfg : Config) (beh : BackendBehavior)
    (instanceName : String) (in_datas out_datas log_datas : List InstanceData)
    (fs : FS)
    (hov : cfg.overwrite_existing_file = false)
    (hne : in_datas ≠ [])
    (hlo : in_datas.length = out_datas.length)
    (hll : in_datas.length = log_datas.length)
    (hex : ∀ o ∈ out_datas, FS.isfile fs o.abspath = true) :
    task cfg beh instanceName in_datas out_datas log_datas fs =
      Except.ok
        { fs := fs,
          msgs :=
            (if !cfg.allow_multi_input && decide (in_datas.length > 1)
             then [multiInputWarning] else []) ++
            (zip3
              (if !cfg.allow_multi_input && decide (in_datas.length > 1)
               then in_datas.take 1 else in_datas)
              out_datas log_datas).map (fun t => existsMsg t.2.1.abspath),
          calls := [], confirmed := [] } := by
  cases hc : (!cfg.allow_multi_input && decide (in_datas.length > 1)) with
  | true =>
    rw [task_nonempty_narrowing cfg beh instanceName in_datas out_datas
      log_datas fs hlo hll hne hc]
    rw [taskLoop_all_existing cfg beh hov
      (zip3 (in_datas.take 1) out_datas log_datas)
      { fs := fs, msgs := [multiInputWarning], calls := [], confirmed := [] }
      (fun t ht => hex t.2.1 (zip3_snd_mem (in_datas.take 1) out_datas
        log_datas t ht))]
    rfl
  | false =>
    rw [task_nonempty_no_narrowing cfg beh instanceName in_datas out_datas
      log_datas fs hlo hll hne hc]
    rw [taskLoop_all_existing cfg beh hov
      (zip3 in_datas out_datas log_datas)
      { fs := fs, msgs := [], calls := [], confirmed := [] }
      (fun t ht => hex t.2.1 (zip3_snd_mem in_datas out_datas
        log_datas t ht))]
    rfl

/-- C9 witness: a second run over two already-converted items (multi input
enabled) reports one skip per item, makes no backend call and leaves both
output files byte-for-byte unchanged. -/
theorem task_second_run_idempotent_witness :
    cfgMulti.overwrite_existing_file = false ∧
    task cfgMulti sampleBeh "instW" [inDicom1, inDicom2]
        [outNifti1, outNifti2] [logData1, logData2]
        [(outNifti1.abspath, "run-one-a"), (outNifti2.abspath, "run-one-b")]
      = Except.ok
          { fs := [(outNifti1.abspath, "run-one-a"),
                   (outNifti2.abspath, "run-one-b")],
            msgs := [existsMsg outNifti1.abspath, existsMsg outNifti2.abspath],
            calls := [], confirmed := [] } :=
  ⟨rfl, by
    have h := task_second_run_idempotent cfgMulti sampleBeh "instW"
      [inDicom1, inDicom2] [outNifti1, outNifti2] [logData1, logData2]
      [(outNifti1.abspath, "run-one-a"), (outNifti2.abspath, "run-one-b")]
      rfl (by decide) rfl rfl (by decide)
    simpa [zip3] using h⟩

/-- C1: with more than one aligned input/output/log triple and multi input
disabled, the task emits the warning and runs the conversion loop on
exactly the first triple: the whole invocation equals a single-item loop
on (first input, first output, first log), so no backend is invoked for
the other items; moreover every backend call of a successful run
references only the first item's artifact paths, and under local backends
the filesystem is unchanged at every path other than the first item's
output path, log path and dcm2niix output file - in particular no output
or log file appears for the discarded items. -/
theorem multi_input_narrows_to_first (cfg : Config) (beh : BackendBehavior)
    (instanceName : String) (a b : InstanceData) (rest : List InstanceData)
    (o0 l0 : InstanceData) (outs logs : List InstanceData) (fs : FS)
    (hm : cfg.allow_multi_input = false)
    (hlo : (a :: b :: rest).length = (o0 :: outs).length)
    (hll : (a :: b :: rest).length = (l0 :: logs).length)
    (hp1 : LocalPypla beh.pypla) (hp2 : LocalDcm2niix beh.dcm2niix) :
    task cfg beh instanceName (a :: b :: rest) (o0 :: outs) (l0 :: logs) fs
      = taskLoop cfg beh [(a, o0, l0)]
          { fs := fs, msgs := [multiInputWarning], calls := [],
            confirmed := [] } ∧
    (∀ st',
      task cfg beh instanceName (a :: b :: rest) (o0 :: outs) (l0 :: logs) fs
        = Except.ok st' →
      multiInputWarning ∈ st'.msgs ∧
      (∀ c ∈ st'.calls,
        c = BackendCall.pypla cfg.verbose a.abspath o0.abspath l0.abspath ∨
        c = BackendCall.dcm2niix
              (dcm2niixCommand cfg.debug cfg.verbose a.abspath o0.abspath)) ∧
      (∀ p, p ≠ o0.abspath → p ≠ l0.abspath →
        p ≠ dcm2niixCmdOut
              (dcm2niixCommand cfg.debug cfg.verbose a.abspath o0.abspath) →
        FS.lookup st'.fs p = FS.lookup fs p)) := by
  have hc : (!cfg.allow_multi_input &&
      decide ((a :: b :: rest).length > 1)) = true := by
    rw [hm]
    simp
  have htask := task_nonempty_narrowing cfg beh instanceName (a :: b :: rest)
    (o0 :: outs) (l0 :: logs) fs hlo hll (by simp) hc
  have hz : zip3 ((a :: b :: rest).take 1) (o0 :: outs) (l0 :: logs)
      = [(a, o0, l0)] := rfl
  rw [hz] at htask
  refine ⟨htask, ?_⟩
  intro st' hok
  rw [htask] at hok
  have hpi := taskLoop_single_ok cfg beh (a, o0, l0) _ st' hok
  have hsh := processItem_ok_shape cfg beh a o0 l0 _ st' hpi
  refine ⟨?_, ?_, ?_⟩
  · obtain ⟨ms, hms⟩ := hsh.1
    rw [hms]
    simp
  · intro c hcall
    rcases hsh.2.1 with h | h | h
    · rw [h] at hcall
      simp at hcall
    · rw [h] at hcall
      simp at hcall
      rw [hcall]
      exact Or.inl rfl
    · rw [h] at hcall
      simp at hcall
      rw [hcall]
      exact Or.inr rfl
  · intro p hpo hpl hpc
    exact hsh.2.2 hp1 hp2 p hpo hpl hpc

/-- C1 witness: two DICOM inputs under the default configuration reduce to
a single-item loop on the first triple with the warning emitted. -/
theorem multi_input_narrows_to_first_witness :
    cfgPlast.allow_multi_input = false ∧
    task cfgPlast sampleBeh "instW" [inDicom1, inDicom2]
        [outNifti1, outNifti2] [logData1, logData2] []
      = taskLoop cfgPlast sampleBeh [(inDicom1, outNifti1, logData1)]
          { fs := [], msgs := [multiInputWarning], calls := [],
            confirmed := [] } :=
  ⟨rfl,
    (multi_input_narrows_to_first cfgPlast sampleBeh "instW" inDicom1
      inDicom2 [] outNifti1 logData1 [outNifti2] [logData2] []
      rfl rfl rfl sampleBeh_localPypla sampleBeh_localDcm).1⟩
